import Mathlib

/-!
Shallow embedding of RetroArch's location driver subsystem
(`src/location/location_driver.c`) and proofs about it.

The C file manages a registry of location driver descriptors
(`location_drivers`, a NULL-terminated array), two module-level globals
(`location_driver`, the descriptor pointer, and `location_data`, the opaque
instance handle), two static control flags inside `location_driver_ctl`
(`location_driver_active`, `location_driver_data_own`), lifecycle entry
points (`init_location`, `uninit_location`), driver selection
(`find_location_driver`), and guarded capability forwarders
(`driver_location_start` / `stop` / `set_interval` / `get_position`).

Modelling conventions:
* The build-configured driver array (its contents depend on `#ifdef ANDROID`)
  is a parameter `registry : List location_driver_t`; the C array with its
  terminating NULL sentinel is `location_drivers registry = registry.map some
  ++ [none]`.
* Opaque `void *` instance handles are `Nat`; a NULL pointer is `none` of an
  `Option`.
* `double` out-parameters carry no arithmetic in this file, so they are
  modelled as `Int`, with the literal `0.0` mapped to `0`.
* Capability slots that return `void` (`free`, `stop`, `set_interval`) are
  modelled by a presence flag; their invocation, like every other observable
  side effect (logging, message-queue pushes, session hooks, driver calls),
  is recorded in an `Event` trace.
* `retroarch_fail` aborts the process; it is modelled by `Except.error`
  carrying the failure code and tag string.
-/

namespace RetroArchLocation

/-- The four `double` out-parameters of `get_position` (latitude, longitude,
horizontal accuracy, vertical accuracy); `0.0` is modelled as `0`. -/
structure position_out where
  lat : Int
  lon : Int
  horiz_accuracy : Int
  vert_accuracy : Int
deriving DecidableEq, Repr

/-- Message-queue icon argument of `runloop_msg_queue_push`; the source passes
`MESSAGE_QUEUE_ICON_DEFAULT`. -/
inductive MsgIcon where
  | icon_default
  | icon_other (n : Nat)
deriving DecidableEq, Repr

/-- Message-queue category argument of `runloop_msg_queue_push`; the source
passes `MESSAGE_QUEUE_CATEGORY_INFO`. -/
inductive MsgCategory where
  | category_info
  | category_other (n : Nat)
deriving DecidableEq, Repr

/-- Observable side effects of the subsystem, in program order:
log output (`RARCH_ERR` / `RARCH_LOG_OUTPUT` / `RARCH_WARN`), user
notifications (`runloop_msg_queue_push`), the owning context's session hooks
(`system->location_cb.initialized` / `.deinitialized`), and calls into the
bound driver descriptor's capability slots. -/
inductive Event where
  | logErr (msg : String)
  | logOutput (msg : String)
  | logWarn (msg : String)
  | msgQueuePush (msg : String) (prio : Nat) (duration : Nat) (flush : Bool)
      (icon : MsgIcon) (category : MsgCategory)
  | hookInitialized
  | hookDeinitialized
  | driverInit (ident : String)
  | driverStart (handle : Nat)
  | driverStop (handle : Nat)
  | driverSetInterval (handle msecs distance : Nat)
  | driverFree (handle : Nat)
deriving DecidableEq, Repr

/-- A driver descriptor (`location_driver_t` in `location_driver.h`): a table
of independently optional function pointers plus an ident string.
`init` is always invoked by `init_location` without a NULL check, so it is
modelled total, returning the handle it would produce (`none` = the C
function returned NULL). `start` returns the driver's own success result for
the given handle. `get_position` receives the handle and the current contents
of the four out-parameters and returns its result plus the (possibly
rewritten) out-parameters. `stop`, `free` and `set_interval` return `void`;
only their presence matters to the forwarders, so they are Booleans, with
invocations recorded as events. -/
structure location_driver_t where
  init : Option Nat
  free : Bool
  start : Option (Nat → Bool)
  stop : Bool
  get_position : Option (Nat → position_out → Bool × position_out)
  set_interval : Bool
  ident : String

/-- The configuration fields the file reads: `settings->bools.location_allow`
and `settings->arrays.location_driver`. -/
structure settings_t where
  location_allow : Bool
  location_driver_name : String
deriving DecidableEq, Repr

/-- Presence of the owning context's optional session hooks
(`system->location_cb.initialized` and `.deinitialized`). -/
structure retro_location_callback where
  initialized : Bool
  deinitialized : Bool
deriving DecidableEq, Repr

/-- The module-level mutable state of `location_driver.c`: the two file-scope
globals `location_driver` (descriptor pointer) and `location_data` (instance
handle), and the two static Booleans inside `location_driver_ctl`.
All four start out NULL / false. -/
structure LocState where
  location_driver : Option location_driver_t
  location_data : Option Nat
  location_driver_active : Bool
  location_driver_data_own : Bool

/-- Initial state: both globals NULL, both static flags false. -/
def initial_state : LocState :=
  { location_driver := none
    location_data := none
    location_driver_active := false
    location_driver_data_own := false }

/-- External inputs of the subsystem: the build-configured registry, the
configuration, verbosity (`verbosity_is_enabled()`), and the session hooks. -/
structure Env where
  registry : List location_driver_t
  settings : settings_t
  verbose : Bool
  system_cb : retro_location_callback

/-- The C array `location_drivers`: the build-configured descriptors followed
by the terminating NULL sentinel. -/
def location_drivers (registry : List location_driver_t) :
    List (Option location_driver_t) :=
  registry.map some ++ [none]

/-- `location_driver_find_handle(idx)`: the raw array access
`location_drivers[idx]`. The outer `Option` distinguishes a defined access
(`some`) from an out-of-bounds read — undefined behaviour in the C source —
for a negative `idx` or an `idx` past the sentinel (`none`). A defined access
yields the stored pointer: `some (some drv)` for a populated slot,
`some none` for the NULL sentinel (the C function then returns NULL). -/
def location_driver_find_handle (registry : List location_driver_t)
    (idx : Int) : Option (Option location_driver_t) :=
  if idx < 0 then none
  else (location_drivers registry)[idx.toNat]?

/-- `location_driver_find_ident(idx)`: like `location_driver_find_handle`,
but a populated slot yields the descriptor's ident and the sentinel yields
NULL; the outer `Option` again marks an out-of-bounds access. -/
def location_driver_find_ident (registry : List location_driver_t)
    (idx : Int) : Option (Option String) :=
  match location_driver_find_handle registry idx with
  | none => none
  | some none => some none
  | some (some drv) => some (some drv.ident)

/-- Modelled from the spec: `driver_ctl(RARCH_DRIVER_CTL_FIND_INDEX, ...)`
lives in `driver.c`, which is not part of the provided sources. Per the spec
(§4.2) it linearly scans the registry for an entry whose ident exactly
(case-sensitively) equals the configured name, first match winning, and
reports the match index, or a negative value when there is no match. This
helper returns the index as `Option Nat` (`none` = no match). -/
def find_index_scan (name : String) :
    List location_driver_t → Option Nat
  | [] => none
  | d :: rest =>
      if d.ident = name then some 0
      else (find_index_scan name rest).map (fun i => i + 1)

/-- Modelled from the spec: the `drv.len` result of
`driver_ctl(RARCH_DRIVER_CTL_FIND_INDEX, ...)` as read by
`find_location_driver` — the match index, or `-1` when no ident matches. -/
def driver_find_index (registry : List location_driver_t)
    (name : String) : Int :=
  match find_index_scan name registry with
  | some i => (i : Int)
  | none => -1

/-- The diagnostic block `find_location_driver` emits on the fallback path:
nothing unless verbosity is enabled; otherwise the error line naming the
configured driver, the header line, one line per populated registry entry
(the enumeration loop stops at the NULL sentinel), and the fallback
warning. -/
def find_fallback_events (env : Env) : List Event :=
  if env.verbose then
    Event.logErr ("Couldn\x27t find any location driver named \x22" ++
        env.settings.location_driver_name ++ "\x22\n") ::
    Event.logOutput "Available location drivers are:\n" ::
    (env.registry.map (fun d => Event.logOutput (d.ident ++ "\n")) ++
      [Event.logWarn "Going to default to first location driver...\n"])
  else []

/-- `find_location_driver()`: query the configured name's index; on a
non-negative index bind that entry; otherwise emit the diagnostics (verbose
only) and fall back to the entry at index 0; if that fallback access yields
NULL — only possible when the registry has no populated entries, so index 0
is the sentinel — call `retroarch_fail(1, "find_location_driver()")`
(modelled as `Except.error`). On success the bound descriptor (the new value
of the `location_driver` global, always non-NULL here) is returned. The
`(0, ...)` error branch models the NULL dereference that would follow if
`FIND_INDEX` reported a non-negative index outside the populated range; it is
unreachable because `driver_find_index` only reports populated indices. -/
def find_location_driver (env : Env) :
    Except (Nat × String) (location_driver_t × List Event) :=
  if 0 ≤ driver_find_index env.registry env.settings.location_driver_name then
    match location_driver_find_handle env.registry
        (driver_find_index env.registry env.settings.location_driver_name) with
    | some (some drv) => .ok (drv, [])
    | _ => .error (0, "unreachable: invalid index from FIND_INDEX")
  else
    match location_driver_find_handle env.registry 0 with
    | some (some drv) => .ok (drv, find_fallback_events env)
    | _ => .error (1, "find_location_driver()")

/-- `init_location()`: a no-op while `location_data` is non-NULL (the
resource-leak guard); otherwise run driver selection, call the bound
descriptor's `init` to produce `location_data`, on a NULL handle log an error
and apply `RARCH_LOCATION_CTL_UNSET_ACTIVE` (clearing the active flag), and
finally — success or failure alike — invoke the `initialized` session hook
when one is registered. -/
def init_location (env : Env) (s : LocState) :
    Except (Nat × String) (LocState × List Event) :=
  if s.location_data.isSome then .ok (s, [])
  else
    match find_location_driver env with
    | .error e => .error e
    | .ok (drv, ev1) =>
        let data := drv.init
        let failEv : List Event :=
          match data with
          | none => [Event.logErr
              "Failed to initialize location driver. Will continue without location.\n"]
          | some _ => []
        let active' :=
          match data with
          | none => false
          | some _ => s.location_driver_active
        let hookEv : List Event :=
          if env.system_cb.initialized then [Event.hookInitialized] else []
        .ok ({ s with
                 location_driver := some drv
                 location_data := data
                 location_driver_active := active' },
             ev1 ++ Event.driverInit drv.ident :: (failEv ++ hookEv))

/-- `uninit_location()`: when both `location_data` and `location_driver` are
present, invoke the `deinitialized` session hook (if registered) and then the
descriptor's `free` capability (if present); in every case clear
`location_data` afterwards. -/
def uninit_location (cb : retro_location_callback) (s : LocState) :
    LocState × List Event :=
  let evs : List Event :=
    match s.location_data, s.location_driver with
    | some h, some drv =>
        (if cb.deinitialized then [Event.hookDeinitialized] else []) ++
        (if drv.free then [Event.driverFree h] else [])
    | _, _ => []
  ({ s with location_data := none }, evs)

/-- The opcodes of `location_driver_ctl` (`enum rarch_location_ctl_state`,
declared in the header); `none_` stands for any value that reaches the
`default:` arm of the switch (an unrecognized opcode). -/
inductive rarch_location_ctl_state where
  | destroy
  | deinit
  | set_own_driver
  | unset_own_driver
  | owns_driver
  | set_active
  | unset_active
  | is_active
  | none_
deriving DecidableEq, Repr

/-- `location_driver_ctl(state, data)`: the control state machine over the
two static flags. `DESTROY` clears both flags and the `location_driver`
global (but not `location_data`); `DEINIT` delegates to `uninit_location`;
the `SET_` / `UNSET_` opcodes write one flag; `OWNS_DRIVER` and `IS_ACTIVE`
return the current flag value without changing anything; every other opcode
falls through to `return true`. The result is the returned Bool, the updated
state, and the emitted events. -/
def location_driver_ctl (cb : retro_location_callback)
    (state : rarch_location_ctl_state) (s : LocState) :
    Bool × LocState × List Event :=
  match state with
  | .destroy =>
      (true, { s with
                 location_driver_active := false
                 location_driver_data_own := false
                 location_driver := none }, [])
  | .deinit =>
      let r := uninit_location cb s
      (true, r.1, r.2)
  | .set_own_driver => (true, { s with location_driver_data_own := true }, [])
  | .unset_own_driver => (true, { s with location_driver_data_own := false }, [])
  | .owns_driver => (s.location_driver_data_own, s, [])
  | .set_active => (true, { s with location_driver_active := true }, [])
  | .unset_active => (true, { s with location_driver_active := false }, [])
  | .is_active => (s.location_driver_active, s, [])
  | .none_ => (true, s, [])

/-- `driver_location_start()`: guard `location_driver && location_data &&
location_driver->start`; behind the guard, forward to the driver's `start`
when `location_allow` is set, otherwise push the fixed "Location is
explicitly disabled" notification (priority 1, 180 ticks, flush, default
icon, info category) and return false; with the guard failed, return false
silently. -/
def driver_location_start (settings : settings_t) (s : LocState) :
    Bool × List Event :=
  match s.location_driver, s.location_data with
  | some drv, some h =>
      match drv.start with
      | some st =>
          if settings.location_allow then (st h, [Event.driverStart h])
          else (false, [Event.msgQueuePush "Location is explicitly disabled.\n"
                  1 180 true MsgIcon.icon_default MsgCategory.category_info])
      | none => (false, [])
  | _, _ => (false, [])

/-- `driver_location_stop()`: guard `location_driver &&
location_driver->stop && location_data`; forward when it passes; `void`
return either way. -/
def driver_location_stop (s : LocState) : List Event :=
  match s.location_driver, s.location_data with
  | some drv, some h => if drv.stop then [Event.driverStop h] else []
  | _, _ => []

/-- `driver_location_set_interval(msecs, distance)`: guard `location_driver
&& location_driver->set_interval && location_data`; forward when it
passes. -/
def driver_location_set_interval (msecs distance : Nat) (s : LocState) :
    List Event :=
  match s.location_driver, s.location_data with
  | some drv, some h =>
      if drv.set_interval then [Event.driverSetInterval h msecs distance]
      else []
  | _, _ => []

/-- `driver_location_get_position(lat, lon, horiz, vert)`: guard
`location_driver && location_driver->get_position && location_data`; when it
passes, return the driver's own result on the caller's out-parameters,
untouched by the forwarder; when it fails, write `0.0` into all four
out-parameters and return false. `out` is the contents of the caller's four
out-parameters when the call is made. -/
def driver_location_get_position (s : LocState) (out : position_out) :
    Bool × position_out :=
  match s.location_driver, s.location_data with
  | some drv, some h =>
      match drv.get_position with
      | some gp => gp h out
      | none => (false, ⟨0, 0, 0, 0⟩)
  | _, _ => (false, ⟨0, 0, 0, 0⟩)

/-- The public operations of the subsystem: lifecycle entry points, every
control opcode, and every capability forwarder. `get_position`'s
out-parameters and both results do not touch the module state, so the
operation carries no arguments here. -/
inductive Op where
  | init
  | deinit
  | ctl (c : rarch_location_ctl_state)
  | start
  | stop
  | set_interval (msecs distance : Nat)
  | get_position
deriving DecidableEq, Repr

/-- One public operation applied to the module state, with the events it
emits; `Except.error` propagates a `retroarch_fail` abort. -/
def step (env : Env) (s : LocState) : Op →
    Except (Nat × String) (LocState × List Event)
  | .init => init_location env s
  | .deinit => .ok (uninit_location env.system_cb s)
  | .ctl c =>
      let r := location_driver_ctl env.system_cb c s
      .ok (r.2.1, r.2.2)
  | .start => .ok (s, (driver_location_start env.settings s).2)
  | .stop => .ok (s, driver_location_stop s)
  | .set_interval m d => .ok (s, driver_location_set_interval m d s)
  | .get_position => .ok (s, [])

/-- Run a sequence of public operations from a given state, accumulating the
event trace; aborts cut the run short. -/
def runFrom (env : Env) (s : LocState) :
    List Op → Except (Nat × String) (LocState × List Event)
  | [] => .ok (s, [])
  | op :: rest =>
      match step env s op with
      | .error e => .error e
      | .ok (s1, ev1) =>
          match runFrom env s1 rest with
          | .error e => .error e
          | .ok (s2, ev2) => .ok (s2, ev1 ++ ev2)

/-- Run a sequence of public operations from the initial state. -/
def run (env : Env) (ops : List Op) :
    Except (Nat × String) (LocState × List Event) :=
  runFrom env initial_state ops

/-- The claimed invariant: an instance handle being bound implies a
descriptor reference being bound. -/
def data_implies_driver (s : LocState) : Prop :=
  s.location_data.isSome → s.location_driver.isSome

instance (s : LocState) : Decidable (data_implies_driver s) := by
  unfold data_implies_driver; infer_instance

/-- A concrete driver descriptor used to instantiate the universally
quantified theorems below: its `init` succeeds with handle `7`, `start`
always reports success, and `get_position` reports success while leaving the
out-parameters as they were. -/
def demo_driver : location_driver_t :=
  { init := some 7
    free := true
    start := some (fun _ => true)
    stop := true
    get_position := some (fun _ out => (true, out))
    set_interval := true
    ident := "null" }

/-- A concrete environment: a one-entry registry holding `demo_driver`, a
configured name matching it, verbosity off, both session hooks registered. -/
def demo_env : Env :=
  { registry := [demo_driver]
    settings := { location_allow := true, location_driver_name := "null" }
    verbose := false
    system_cb := { initialized := true, deinitialized := true } }

/-! Helper lemmas about driver selection. -/

lemma find_index_scan_lt_length {name : String}
    {l : List location_driver_t} {k : Nat}
    (h : find_index_scan name l = some k) : k < l.length := by
  induction l generalizing k with
  | nil => simp [find_index_scan] at h
  | cons d rest ih =>
      rw [find_index_scan] at h
      by_cases hd : d.ident = name
      · rw [if_pos hd] at h
        cases h
        simp
      · rw [if_neg hd] at h
        rcases Option.map_eq_some'.mp h with ⟨j, hj, rfl⟩
        have := ih hj
        simp only [List.length_cons]
        omega

lemma find_index_scan_get {name : String}
    {l : List location_driver_t} {k : Nat}
    (h : find_index_scan name l = some k) :
    ∃ drv, l[k]? = some drv ∧ drv.ident = name := by
  induction l generalizing k with
  | nil => simp [find_index_scan] at h
  | cons d rest ih =>
      rw [find_index_scan] at h
      by_cases hd : d.ident = name
      · rw [if_pos hd] at h
        cases h
        exact ⟨d, by simp, hd⟩
      · rw [if_neg hd] at h
        rcases Option.map_eq_some'.mp h with ⟨j, hj, rfl⟩
        rcases ih hj with ⟨drv, hget, hid⟩
        exact ⟨drv, by simpa using hget, hid⟩

lemma find_index_scan_of_mem {name : String}
    {l : List location_driver_t} {d : location_driver_t}
    (hm : d ∈ l) (hid : d.ident = name) :
    ∃ k, find_index_scan name l = some k := by
  induction l with
  | nil => cases hm
  | cons e rest ih =>
      rw [find_index_scan]
      by_cases he : e.ident = name
      · exact ⟨0, by rw [if_pos he]⟩
      · rcases List.mem_cons.mp hm with rfl | hm2
        · exact absurd hid he
        · rcases ih hm2 with ⟨k, hk⟩
          exact ⟨k + 1, by rw [if_neg he, hk]; rfl⟩

lemma location_drivers_getElem_lt {registry : List location_driver_t}
    {k : Nat} (h : k < registry.length) :
    (location_drivers registry)[k]? = (registry[k]?).map some := by
  rw [location_drivers, List.getElem?_append, if_pos (by simpa using h)]
  exact List.getElem?_map some registry k

lemma location_driver_find_handle_lt {registry : List location_driver_t}
    {k : Nat} {drv : location_driver_t}
    (hk : k < registry.length) (h : registry[k]? = some drv) :
    location_driver_find_handle registry (k : Int) = some (some drv) := by
  rw [location_driver_find_handle, if_neg (by omega), Int.toNat_ofNat,
    location_drivers_getElem_lt hk, h]
  rfl

lemma location_driver_find_handle_sentinel
    (registry : List location_driver_t) :
    location_driver_find_handle registry (registry.length : Int) =
      some none := by
  rw [location_driver_find_handle, if_neg (by omega), Int.toNat_ofNat,
    location_drivers, List.getElem?_append, if_neg (by simp)]
  simp

lemma find_location_driver_matched {env : Env} {k : Nat}
    {drv : location_driver_t}
    (hscan : find_index_scan env.settings.location_driver_name
        env.registry = some k)
    (hget : env.registry[k]? = some drv) :
    find_location_driver env = .ok (drv, []) := by
  have hk := find_index_scan_lt_length hscan
  have hi : driver_find_index env.registry
      env.settings.location_driver_name = (k : Int) := by
    rw [driver_find_index, hscan]
  rw [find_location_driver, hi, if_pos (by omega),
    location_driver_find_handle_lt hk hget]

lemma find_location_driver_fallback {env : Env}
    {d : location_driver_t} {rest : List location_driver_t}
    (hscan : find_index_scan env.settings.location_driver_name
        env.registry = none)
    (hreg : env.registry = d :: rest) :
    find_location_driver env = .ok (d, find_fallback_events env) := by
  have hi : driver_find_index env.registry
      env.settings.location_driver_name = -1 := by
    rw [driver_find_index, hscan]
  have h0 : location_driver_find_handle env.registry 0 = some (some d) := by
    rw [hreg]
    simp [location_driver_find_handle, location_drivers]
  rw [find_location_driver, hi, if_neg (by omega), h0]

lemma find_location_driver_empty {env : Env} (hreg : env.registry = []) :
    find_location_driver env = .error (1, "find_location_driver()") := by
  have hscan : find_index_scan env.settings.location_driver_name
      env.registry = none := by
    rw [hreg]; rfl
  have hi : driver_find_index env.registry
      env.settings.location_driver_name = -1 := by
    rw [driver_find_index, hscan]
  have h0 : location_driver_find_handle env.registry 0 = some none := by
    rw [hreg]
    simp [location_driver_find_handle, location_drivers]
  rw [find_location_driver, hi, if_neg (by omega), h0]

lemma find_location_driver_error {env : Env} {e : Nat × String}
    (h : find_location_driver env = .error e) :
    env.registry = [] ∧ e = (1, "find_location_driver()") := by
  cases hscan : find_index_scan env.settings.location_driver_name
      env.registry with
  | some k =>
      rcases find_index_scan_get hscan with ⟨drv, hget, _⟩
      rw [find_location_driver_matched hscan hget] at h
      cases h
  | none =>
      cases hreg : env.registry with
      | nil =>
          rw [find_location_driver_empty hreg] at h
          injection h with h2
          exact ⟨rfl, h2.symm⟩
      | cons d rest =>
          rw [find_location_driver_fallback hscan hreg] at h
          cases h

lemma find_location_driver_ok_of_ne_nil {env : Env}
    (hreg : env.registry ≠ []) :
    ∃ drv ev, find_location_driver env = .ok (drv, ev) := by
  cases h : find_location_driver env with
  | ok r =>
      obtain ⟨d, ev⟩ := r
      exact ⟨d, ev, rfl⟩
  | error e => exact absurd (find_location_driver_error h).1 hreg

lemma find_location_driver_ok_events {env : Env}
    {drv : location_driver_t} {ev : List Event}
    (h : find_location_driver env = .ok (drv, ev)) :
    ev = [] ∨ ev = find_fallback_events env := by
  cases hscan : find_index_scan env.settings.location_driver_name
      env.registry with
  | some k =>
      rcases find_index_scan_get hscan with ⟨drv2, hget, _⟩
      rw [find_location_driver_matched hscan hget] at h
      injection h with h2
      injection h2 with _ he
      exact Or.inl he.symm
  | none =>
      cases hreg : env.registry with
      | nil =>
          rw [find_location_driver_empty hreg] at h
          cases h
      | cons d rest =>
          rw [find_location_driver_fallback hscan hreg] at h
          injection h with h2
          injection h2 with _ he
          exact Or.inr he.symm

lemma find_fallback_events_count_hook (env : Env) :
    (find_fallback_events env).count Event.hookInitialized = 0 := by
  rw [List.count_eq_zero]
  cases hv : env.verbose <;> simp [find_fallback_events, hv]

/-! Helper lemmas about the lifecycle entry points and the control state
machine. -/

lemma init_location_bound {env : Env} {s : LocState}
    (h : s.location_data.isSome = true) :
    init_location env s = .ok (s, []) := by
  rw [init_location, if_pos h]

lemma init_location_run {env : Env} {s : LocState}
    {drv : location_driver_t} {ev1 : List Event}
    (hd : s.location_data = none)
    (hf : find_location_driver env = .ok (drv, ev1)) :
    init_location env s = .ok
      ({ s with
           location_driver := some drv
           location_data := drv.init
           location_driver_active :=
             match drv.init with
             | none => false
             | some _ => s.location_driver_active },
       ev1 ++ Event.driverInit drv.ident ::
         ((match drv.init with
           | none => [Event.logErr
               "Failed to initialize location driver. Will continue without location.\n"]
           | some _ => []) ++
          (if env.system_cb.initialized then [Event.hookInitialized]
           else []))) := by
  rw [init_location, if_neg (by simp [hd]), hf]

lemma init_location_preserves {env : Env} {s s' : LocState}
    {ev : List Event} (h : init_location env s = .ok (s', ev)) :
    data_implies_driver s → data_implies_driver s' := by
  intro hinv
  by_cases hd : s.location_data.isSome
  · rw [init_location_bound hd] at h
    injection h with h2
    injection h2 with hs he
    subst hs
    exact hinv
  · rw [Option.not_isSome_iff_eq_none] at hd
    cases hf : find_location_driver env with
    | error e =>
        rw [init_location, if_neg (by simp [hd]), hf] at h
        cases h
    | ok r =>
        obtain ⟨drv, ev1⟩ := r
        rw [init_location_run hd hf] at h
        injection h with h2
        injection h2 with hs he
        subst hs
        intro _
        rfl

lemma uninit_location_fst (cb : retro_location_callback) (s : LocState) :
    (uninit_location cb s).1 = { s with location_data := none } := rfl

lemma location_driver_ctl_destroy (cb : retro_location_callback)
    (s : LocState) :
    location_driver_ctl cb rarch_location_ctl_state.destroy s =
      (true, { s with
                 location_driver_active := false
                 location_driver_data_own := false
                 location_driver := none }, []) := rfl

lemma step_preserves {env : Env} {s s' : LocState} {op : Op}
    {ev : List Event}
    (hop : op ≠ Op.ctl rarch_location_ctl_state.destroy)
    (h : step env s op = .ok (s', ev)) :
    data_implies_driver s → data_implies_driver s' := by
  intro hinv
  cases op with
  | init => exact init_location_preserves h hinv
  | deinit =>
      injection h with h2
      have hs : s' = (uninit_location env.system_cb s).1 := by
        rw [h2]
      rw [hs, uninit_location_fst]
      intro hx
      simp at hx
  | ctl c =>
      cases c with
      | destroy => exact absurd rfl hop
      | deinit =>
          injection h with h2
          injection h2 with hs _
          rw [← hs]
          rw [show (location_driver_ctl env.system_cb
              rarch_location_ctl_state.deinit s).2.1 =
            { s with location_data := none } from rfl]
          intro hx
          simp at hx
      | set_own_driver =>
          injection h with h2
          injection h2 with hs _
          rw [← hs]
          intro hx
          exact hinv hx
      | unset_own_driver =>
          injection h with h2
          injection h2 with hs _
          rw [← hs]
          intro hx
          exact hinv hx
      | owns_driver =>
          injection h with h2
          injection h2 with hs _
          rw [← hs]
          exact hinv
      | set_active =>
          injection h with h2
          injection h2 with hs _
          rw [← hs]
          intro hx
          exact hinv hx
      | unset_active =>
          injection h with h2
          injection h2 with hs _
          rw [← hs]
          intro hx
          exact hinv hx
      | is_active =>
          injection h with h2
          injection h2 with hs _
          rw [← hs]
          exact hinv
      | none_ =>
          injection h with h2
          injection h2 with hs _
          rw [← hs]
          exact hinv
  | start =>
      injection h with h2
      injection h2 with hs _
      rw [← hs]
      exact hinv
  | stop =>
      injection h with h2
      injection h2 with hs _
      rw [← hs]
      exact hinv
  | set_interval m d =>
      injection h with h2
      injection h2 with hs _
      rw [← hs]
      exact hinv
  | get_position =>
      injection h with h2
      injection h2 with hs _
      rw [← hs]
      exact hinv

lemma runFrom_cons_ok {env : Env} {s : LocState} {op : Op}
    {rest : List Op} {s1 : LocState} {ev1 : List Event}
    (hstep : step env s op = .ok (s1, ev1)) :
    runFrom env s (op :: rest) =
      match runFrom env s1 rest with
      | .error e => .error e
      | .ok (s2, ev2) => .ok (s2, ev1 ++ ev2) := by
  rw [runFrom, hstep]

lemma runFrom_preserves {env : Env} {ops : List Op}
    (hops : ∀ op ∈ ops, op ≠ Op.ctl rarch_location_ctl_state.destroy) :
    ∀ {s s' : LocState} {ev : List Event}, data_implies_driver s →
      runFrom env s ops = .ok (s', ev) → data_implies_driver s' := by
  induction ops with
  | nil =>
      intro s s' ev hinv h
      rw [runFrom] at h
      injection h with h2
      injection h2 with hs _
      rw [← hs]
      exact hinv
  | cons op rest ih =>
      intro s s' ev hinv h
      cases hstep : step env s op with
      | error e =>
          rw [runFrom, hstep] at h
          cases h
      | ok r =>
          obtain ⟨s1, ev1⟩ := r
          rw [runFrom_cons_ok hstep] at h
          have hinv1 := step_preserves (hops op (by simp)) hstep hinv
          cases hrest : runFrom env s1 rest with
          | error e =>
              rw [hrest] at h
              cases h
          | ok r2 =>
              rw [hrest] at h
              obtain ⟨s2, ev2⟩ := r2
              injection h with h2
              injection h2 with hs _
              rw [← hs]
              exact ih (fun o hm => hops o (List.mem_cons_of_mem op hm))
                hinv1 hrest

/-! Theorems for the individual claims. -/

/-- C1 counterexample: the invariant "instance handle present implies
descriptor reference present" is NOT preserved by `apply(DESTROY)`. From the
initial state, `init` (with a one-driver registry whose `init` succeeds)
binds descriptor and instance; `RARCH_LOCATION_CTL_DESTROY` then clears the
descriptor reference (`location_driver = NULL`) but leaves `location_data`
bound, so the reached state has an instance handle with no descriptor
reference. -/
theorem destroy_breaks_data_implies_driver :
    run demo_env [Op.init, Op.ctl rarch_location_ctl_state.destroy] =
      .ok ({ location_driver := none
             location_data := some 7
             location_driver_active := false
             location_driver_data_own := false },
           [Event.driverInit "null", Event.hookInitialized]) ∧
    ¬ data_implies_driver
        { location_driver := none
          location_data := some 7
          location_driver_active := false
          location_driver_data_own := false } :=
  ⟨rfl, by decide⟩

/-- C1 (amended): for every sequence of public operations (init, deinit,
every control opcode, every capability call) starting from the initial
state and never applying the DESTROY opcode, the invariant "instance handle
present implies descriptor reference present" holds in every reachable
state. `apply(DESTROY)` itself violates it: it clears the descriptor
reference while leaving the instance handle bound. -/
theorem data_implies_driver_invariant_no_destroy (env : Env)
    (ops : List Op)
    (hops : ∀ op ∈ ops, op ≠ Op.ctl rarch_location_ctl_state.destroy)
    (s' : LocState) (ev : List Event)
    (h : run env ops = .ok (s', ev)) : data_implies_driver s' :=
  runFrom_preserves hops (fun hx => by simp [initial_state] at hx) h

theorem data_implies_driver_invariant_no_destroy_witness :
    data_implies_driver
      { location_driver := some demo_driver
        location_data := some 7
        location_driver_active := false
        location_driver_data_own := false } :=
  data_implies_driver_invariant_no_destroy demo_env [Op.init] (by decide)
    _ _ rfl

/-- C2: in every state with an instance handle already bound, `init_location`
is a no-op: it returns without a fatal exit, the state (instance handle,
descriptor reference, both control flags) is unchanged, and the empty event
trace shows that neither driver selection, nor any descriptor `init`, nor
the `initialized` session hook ran; consequently, when a first `init` call
has bound an instance, a second `init` call without an intervening deinit
changes nothing, so exactly one live instance exists. -/
theorem init_location_noop_when_bound (env env2 : Env) (s s1 : LocState)
    (ev1 : List Event) :
    (s.location_data.isSome = true → init_location env s = .ok (s, [])) ∧
    (init_location env s = .ok (s1, ev1) → s1.location_data.isSome = true →
      init_location env2 s1 = .ok (s1, [])) :=
  ⟨fun h => init_location_bound h,
   fun _ h1 => init_location_bound h1⟩

theorem init_location_noop_when_bound_witness :
    init_location demo_env
      { location_driver := some demo_driver
        location_data := some 7
        location_driver_active := false
        location_driver_data_own := false } =
      .ok ({ location_driver := some demo_driver
             location_data := some 7
             location_driver_active := false
             location_driver_data_own := false }, []) :=
  (init_location_noop_when_bound demo_env demo_env
    { location_driver := some demo_driver
      location_data := some 7
      location_driver_active := false
      location_driver_data_own := false }
    initial_state []).1 (by decide)

/-- C9: `apply(SET_ACTIVE)` followed by `apply(IS_ACTIVE)` yields true; a
subsequent `apply(DESTROY)` unconditionally sets both flags to false and
clears the descriptor reference while leaving the instance handle bound
(it does not free the instance — no events are emitted); every mutating or
unrecognized opcode returns true; the query opcodes return their flag's
current value and modify nothing. -/
theorem location_driver_ctl_contract (cb : retro_location_callback)
    (s : LocState) :
    ((location_driver_ctl cb rarch_location_ctl_state.is_active
        (location_driver_ctl cb rarch_location_ctl_state.set_active
          s).2.1).1 = true) ∧
    (location_driver_ctl cb rarch_location_ctl_state.destroy s =
      (true, { s with
                 location_driver_active := false
                 location_driver_data_own := false
                 location_driver := none }, [])) ∧
    ((location_driver_ctl cb rarch_location_ctl_state.destroy
        s).2.1.location_data = s.location_data) ∧
    (∀ c, c = rarch_location_ctl_state.destroy ∨
        c = rarch_location_ctl_state.deinit ∨
        c = rarch_location_ctl_state.set_own_driver ∨
        c = rarch_location_ctl_state.unset_own_driver ∨
        c = rarch_location_ctl_state.set_active ∨
        c = rarch_location_ctl_state.unset_active ∨
        c = rarch_location_ctl_state.none_ →
      (location_driver_ctl cb c s).1 = true) ∧
    (location_driver_ctl cb rarch_location_ctl_state.is_active s =
      (s.location_driver_active, s, [])) ∧
    (location_driver_ctl cb rarch_location_ctl_state.owns_driver s =
      (s.location_driver_data_own, s, [])) := by
  refine ⟨rfl, rfl, rfl, ?_, rfl, rfl⟩
  intro c hc
  rcases hc with rfl | rfl | rfl | rfl | rfl | rfl | rfl <;> rfl

theorem location_driver_ctl_contract_witness :
    (location_driver_ctl { initialized := true, deinitialized := true }
      rarch_location_ctl_state.none_ initial_state).1 = true :=
  (location_driver_ctl_contract
    { initialized := true, deinitialized := true } initial_state).2.2.2.1
    rarch_location_ctl_state.none_
    (Or.inr (Or.inr (Or.inr (Or.inr (Or.inr (Or.inr rfl))))))

/-- C10: in every state where DESTROY has cleared the descriptor reference
while an instance handle is still bound, `uninit_location` clears the
instance handle but emits no events — neither the descriptor `free`
capability nor the `deinitialized` session hook is invoked — and
`init_location` remains a no-op because the stale instance handle still
trips the re-init guard. -/
theorem stale_binding_after_destroy (env : Env) (s : LocState) (h : Nat)
    (hdrv : s.location_driver = none) (hdata : s.location_data = some h) :
    uninit_location env.system_cb s = ({ s with location_data := none }, []) ∧
    init_location env s = .ok (s, []) := by
  constructor
  · rw [uninit_location, hdata, hdrv]
  · exact init_location_bound (by rw [hdata]; rfl)

theorem stale_binding_after_destroy_witness :
    uninit_location demo_env.system_cb
        { location_driver := none
          location_data := some 7
          location_driver_active := false
          location_driver_data_own := false } =
      ({ location_driver := none
         location_data := none
         location_driver_active := false
         location_driver_data_own := false }, []) ∧
    init_location demo_env
        { location_driver := none
          location_data := some 7
          location_driver_active := false
          location_driver_data_own := false } =
      .ok ({ location_driver := none
             location_data := some 7
             location_driver_active := false
             location_driver_data_own := false }, []) :=
  stale_binding_after_destroy demo_env
    { location_driver := none
      location_data := some 7
      location_driver_active := false
      location_driver_data_own := false } 7 rfl rfl

/-- C3: whenever the `get_position` guard fails — descriptor reference
absent, or the descriptor's `get_position` capability absent, or no instance
handle bound — `driver_location_get_position` returns false and writes `0.0`
into all four out-parameters, whatever they held before; when the guard
passes, the call returns exactly the underlying driver's `get_position`
result on the caller's out-parameters, untouched by the forwarder. -/
theorem driver_location_get_position_contract (s : LocState)
    (out : position_out) :
    ((s.location_driver = none ∨ s.location_data = none ∨
        (∀ drv, s.location_driver = some drv → drv.get_position = none)) →
      driver_location_get_position s out = (false, ⟨0, 0, 0, 0⟩)) ∧
    (∀ drv h gp, s.location_driver = some drv → s.location_data = some h →
      drv.get_position = some gp →
      driver_location_get_position s out = gp h out) := by
  constructor
  · intro hguard
    cases hdrv : s.location_driver with
    | none => rw [driver_location_get_position, hdrv]
    | some drv =>
        cases hdata : s.location_data with
        | none => rw [driver_location_get_position, hdrv, hdata]
        | some h =>
            rcases hguard with h1 | h2 | h3
            · rw [hdrv] at h1; cases h1
            · rw [hdata] at h2; cases h2
            · simp [driver_location_get_position, hdrv, hdata, h3 drv hdrv]
  · intro drv h gp hdrv hdata hgp
    simp [driver_location_get_position, hdrv, hdata, hgp]

theorem driver_location_get_position_contract_witness :
    driver_location_get_position initial_state ⟨1, 2, 3, 4⟩ =
      (false, ⟨0, 0, 0, 0⟩) ∧
    driver_location_get_position
        { location_driver := some demo_driver
          location_data := some 7
          location_driver_active := false
          location_driver_data_own := false } ⟨1, 2, 3, 4⟩ =
      (true, ⟨1, 2, 3, 4⟩) :=
  ⟨(driver_location_get_position_contract initial_state ⟨1, 2, 3, 4⟩).1
      (Or.inl rfl),
   (driver_location_get_position_contract
      { location_driver := some demo_driver
        location_data := some 7
        location_driver_active := false
        location_driver_data_own := false } ⟨1, 2, 3, 4⟩).2
      demo_driver 7 (fun _ out => (true, out)) rfl rfl rfl⟩

/-- C5: with an instance bound and a descriptor providing `start`,
`driver_location_start` with `location_allow = false` returns false and emits
exactly one notification — the fixed "Location is explicitly disabled"
message with priority 1, 180-tick duration, flush, default icon,
informational category — while with `location_allow = true` it returns
exactly the underlying driver's `start` result; with no bound instance, no
descriptor, or no `start` capability it returns false silently, emitting
nothing. -/
theorem driver_location_start_contract (settings : settings_t)
    (s : LocState) :
    (∀ drv h st, s.location_driver = some drv → s.location_data = some h →
      drv.start = some st →
      (settings.location_allow = false →
        driver_location_start settings s =
          (false, [Event.msgQueuePush "Location is explicitly disabled.\n"
            1 180 true MsgIcon.icon_default MsgCategory.category_info])) ∧
      (settings.location_allow = true →
        driver_location_start settings s = (st h, [Event.driverStart h]))) ∧
    ((s.location_driver = none ∨ s.location_data = none ∨
        (∀ drv, s.location_driver = some drv → drv.start = none)) →
      driver_location_start settings s = (false, [])) := by
  constructor
  · intro drv h st hdrv hdata hst
    constructor
    · intro hallow
      simp [driver_location_start, hdrv, hdata, hst, hallow]
    · intro hallow
      simp [driver_location_start, hdrv, hdata, hst, hallow]
  · intro hguard
    cases hdrv : s.location_driver with
    | none => rw [driver_location_start, hdrv]
    | some drv =>
        cases hdata : s.location_data with
        | none => rw [driver_location_start, hdrv, hdata]
        | some h =>
            rcases hguard with h1 | h2 | h3
            · rw [hdrv] at h1; cases h1
            · rw [hdata] at h2; cases h2
            · simp [driver_location_start, hdrv, hdata, h3 drv hdrv]

theorem driver_location_start_contract_witness :
    driver_location_start
        { location_allow := false, location_driver_name := "null" }
        { location_driver := some demo_driver
          location_data := some 7
          location_driver_active := false
          location_driver_data_own := false } =
      (false, [Event.msgQueuePush "Location is explicitly disabled.\n"
        1 180 true MsgIcon.icon_default MsgCategory.category_info]) ∧
    driver_location_start
        { location_allow := true, location_driver_name := "null" }
        { location_driver := some demo_driver
          location_data := some 7
          location_driver_active := false
          location_driver_data_own := false } =
      (true, [Event.driverStart 7]) ∧
    driver_location_start
        { location_allow := false, location_driver_name := "null" }
        initial_state = (false, []) :=
  ⟨((driver_location_start_contract
      { location_allow := false, location_driver_name := "null" }
      { location_driver := some demo_driver
        location_data := some 7
        location_driver_active := false
        location_driver_data_own := false }).1
      demo_driver 7 (fun _ => true) rfl rfl rfl).1 rfl,
   ((driver_location_start_contract
      { location_allow := true, location_driver_name := "null" }
      { location_driver := some demo_driver
        location_data := some 7
        location_driver_active := false
        location_driver_data_own := false }).1
      demo_driver 7 (fun _ => true) rfl rfl rfl).2 rfl,
   (driver_location_start_contract
      { location_allow := false, location_driver_name := "null" }
      initial_state).2 (Or.inl rfl)⟩

/-- C7: after every `uninit_location` call the instance handle is cleared,
while the descriptor reference and both control flags are exactly what they
were before; with no instance bound the call is a total no-op (state
unchanged, no events), and with no descriptor bound no event is emitted
(neither the `free` capability nor the `deinitialized` hook runs). -/
theorem uninit_location_contract (cb : retro_location_callback)
    (s : LocState) :
    ((uninit_location cb s).1.location_data = none) ∧
    ((uninit_location cb s).1.location_driver = s.location_driver) ∧
    ((uninit_location cb s).1.location_driver_active =
      s.location_driver_active) ∧
    ((uninit_location cb s).1.location_driver_data_own =
      s.location_driver_data_own) ∧
    (s.location_data = none → uninit_location cb s = (s, [])) ∧
    (s.location_driver = none → (uninit_location cb s).2 = []) := by
  refine ⟨rfl, rfl, rfl, rfl, ?_, ?_⟩
  · intro hdata
    rw [uninit_location, hdata]
    cases s
    simp_all
  · intro hdrv
    rw [uninit_location, hdrv]
    cases s.location_data <;> rfl

theorem uninit_location_contract_witness :
    uninit_location { initialized := true, deinitialized := true }
      initial_state = (initial_state, []) :=
  (uninit_location_contract
    { initialized := true, deinitialized := true }
    initial_state).2.2.2.2.1 rfl

/-- A concrete environment whose configured name matches no registry ident,
with verbose diagnostics enabled. -/
def demo_env_unmatched : Env :=
  { registry := [demo_driver]
    settings := { location_allow := true, location_driver_name := "gps" }
    verbose := true
    system_cb := { initialized := true, deinitialized := true } }

/-- A concrete environment with an empty registry (build misconfiguration:
only the NULL sentinel is present). -/
def demo_env_empty : Env :=
  { registry := []
    settings := { location_allow := true, location_driver_name := "null" }
    verbose := false
    system_cb := { initialized := true, deinitialized := true } }

/-- C4: when the configured name exactly (case-sensitively) matches some
registry ident, the scan reports an index `k` and `find_location_driver`
binds the entry registered at `k`, whose ident is the configured name, with
no diagnostics; when no ident matches and the registry is non-empty, it
falls back to the entry at index 0, recording the diagnostic block exactly
when verbose diagnostics are enabled (the block is then non-empty); when the
registry has no entries, it aborts with failure code 1 and the tag
`find_location_driver()`, and every fatal exit of `find_location_driver` is
exactly this one (error code 1, that tag, registry empty). -/
theorem find_location_driver_contract (env : Env) :
    ((∃ d ∈ env.registry,
        d.ident = env.settings.location_driver_name) →
      ∃ k, find_index_scan env.settings.location_driver_name
        env.registry = some k) ∧
    (∀ k, find_index_scan env.settings.location_driver_name
        env.registry = some k →
      ∃ drv, env.registry[k]? = some drv ∧
        drv.ident = env.settings.location_driver_name ∧
        find_location_driver env = .ok (drv, [])) ∧
    (find_index_scan env.settings.location_driver_name
        env.registry = none →
      ∀ d rest, env.registry = d :: rest →
        find_location_driver env = .ok (d, find_fallback_events env) ∧
        (env.verbose = true → find_fallback_events env ≠ [])) ∧
    (env.registry = [] →
      find_location_driver env = .error (1, "find_location_driver()")) ∧
    (∀ e, find_location_driver env = .error e →
      env.registry = [] ∧ e = (1, "find_location_driver()")) := by
  refine ⟨?_, ?_, ?_, ?_, ?_⟩
  · rintro ⟨d, hm, hid⟩
    exact find_index_scan_of_mem hm hid
  · intro k hscan
    rcases find_index_scan_get hscan with ⟨drv, hget, hid⟩
    exact ⟨drv, hget, hid, find_location_driver_matched hscan hget⟩
  · intro hscan d rest hreg
    refine ⟨find_location_driver_fallback hscan hreg, ?_⟩
    intro hv
    simp [find_fallback_events, hv]
  · exact find_location_driver_empty
  · exact fun e h => find_location_driver_error h

theorem find_location_driver_contract_witness :
    (∃ drv, demo_env.registry[(0 : Nat)]? = some drv ∧
      drv.ident = demo_env.settings.location_driver_name ∧
      find_location_driver demo_env = .ok (drv, [])) ∧
    (find_location_driver demo_env_unmatched =
      .ok (demo_driver, find_fallback_events demo_env_unmatched)) ∧
    find_fallback_events demo_env_unmatched ≠ [] ∧
    find_location_driver demo_env_empty =
      .error (1, "find_location_driver()") :=
  ⟨(find_location_driver_contract demo_env).2.1 0 rfl,
   ((find_location_driver_contract demo_env_unmatched).2.2.1 rfl
      demo_driver [] rfl).1,
   ((find_location_driver_contract demo_env_unmatched).2.2.1 rfl
      demo_driver [] rfl).2 rfl,
   (find_location_driver_contract demo_env_empty).2.2.2.1 rfl⟩

/-- C6: for every non-no-op `init_location` call (no instance bound yet) on
a non-empty registry, the call returns without a fatal exit; when the bound
descriptor's `init` returned no handle, the active flag ends up false; and
in every case — driver init success or failure — the `initialized` session
hook fires exactly once when registered, and not at all otherwise. -/
theorem init_location_failure_contract (env : Env) (s : LocState)
    (hd : s.location_data = none) (hreg : env.registry ≠ []) :
    ∃ s' ev, init_location env s = .ok (s', ev) ∧
      (s'.location_data = none → s'.location_driver_active = false) ∧
      ev.count Event.hookInitialized =
        (if env.system_cb.initialized then 1 else 0) := by
  rcases find_location_driver_ok_of_ne_nil hreg with ⟨drv, ev1, hf⟩
  have h0 : ev1.count Event.hookInitialized = 0 := by
    rcases find_location_driver_ok_events hf with rfl | rfl
    · rfl
    · exact find_fallback_events_count_hook env
  refine ⟨_, _, init_location_run hd hf, ?_, ?_⟩
  · intro hnone
    cases hinit : drv.init with
    | none => simp [hinit]
    | some d =>
        rw [show ({ s with
            location_driver := some drv
            location_data := drv.init
            location_driver_active :=
              match drv.init with
              | none => false
              | some _ => s.location_driver_active } :
          LocState).location_data = drv.init from rfl, hinit] at hnone
        cases hnone
  · cases hinit : drv.init with
    | none =>
        cases hcb : env.system_cb.initialized <;>
          simp [List.count_append, List.count_cons, h0, hinit, hcb]
    | some d =>
        cases hcb : env.system_cb.initialized <;>
          simp [List.count_append, List.count_cons, h0, hinit, hcb]

theorem init_location_failure_contract_witness :
    ∃ s' ev, init_location demo_env initial_state = .ok (s', ev) ∧
      (s'.location_data = none → s'.location_driver_active = false) ∧
      ev.count Event.hookInitialized =
        (if demo_env.system_cb.initialized then 1 else 0) :=
  init_location_failure_contract demo_env initial_state rfl
    (fun h => List.noConfusion h)

/-- C8 counterexample: `location_driver_find_handle` does not return a
defined NULL result for indices outside the array: with a one-entry registry
the array is `[descriptor, sentinel]`; index 2 (strictly past the sentinel)
and index -1 are out-of-bounds reads — undefined behaviour in the C source,
modelled as the outer `none` — and not the defined NULL return `some none`
the claim asserts; likewise for `location_driver_find_ident`. -/
theorem find_handle_out_of_bounds_counterexample :
    location_driver_find_handle [demo_driver] 2 = none ∧
    location_driver_find_handle [demo_driver] 2 ≠ some none ∧
    location_driver_find_handle [demo_driver] (-1) = none ∧
    location_driver_find_ident [demo_driver] 2 = none := by
  refine ⟨rfl, ?_, rfl, rfl⟩
  intro hc
  have hn : location_driver_find_handle [demo_driver] 2 = none := rfl
  rw [hn] at hc
  cases hc

/-- C8 (amended): for every index inside the array bounds — `0 ≤ idx` and
`idx` at most the sentinel position, which equals the number of populated
entries — `get(idx)` and `ident_of(idx)` are well defined: they return the
descriptor (resp. its ident) registered at position `idx` for every
populated position, and NULL exactly at the sentinel position; indices
past the sentinel or negative are out-of-bounds array accesses (undefined
behaviour), which the code does not guard against. -/
theorem find_handle_in_bounds_contract (registry : List location_driver_t)
    (idx : Int) (h0 : 0 ≤ idx) :
    (∀ drv, registry[idx.toNat]? = some drv →
      location_driver_find_handle registry idx = some (some drv) ∧
      location_driver_find_ident registry idx = some (some drv.ident)) ∧
    (idx.toNat = registry.length →
      location_driver_find_handle registry idx = some none ∧
      location_driver_find_ident registry idx = some none) := by
  constructor
  · intro drv hget
    have hk : idx.toNat < registry.length := by
      by_contra hk
      rw [List.getElem?_eq_none (by omega)] at hget
      cases hget
    have hidx : ((idx.toNat : Nat) : Int) = idx := Int.toNat_of_nonneg h0
    have hh : location_driver_find_handle registry idx = some (some drv) := by
      rw [← hidx]
      exact location_driver_find_handle_lt hk hget
    exact ⟨hh, by rw [location_driver_find_ident, hh]⟩
  · intro hlen
    have hidx : idx = (registry.length : Int) := by omega
    rw [hidx]
    exact ⟨location_driver_find_handle_sentinel registry,
      by rw [location_driver_find_ident,
        location_driver_find_handle_sentinel registry]⟩

theorem find_handle_in_bounds_contract_witness :
    (location_driver_find_handle [demo_driver] 0 =
      some (some demo_driver) ∧
     location_driver_find_ident [demo_driver] 0 = some (some "null")) ∧
    (location_driver_find_handle [demo_driver] 1 = some none ∧
     location_driver_find_ident [demo_driver] 1 = some none) :=
  ⟨(find_handle_in_bounds_contract [demo_driver] 0 (by decide)).1
      demo_driver rfl,
   (find_handle_in_bounds_contract [demo_driver] 1 (by decide)).2 rfl⟩

end RetroArchLocation
